import Mathlib

/-!
Verification development for the ngTranscription repository: a browser
client that streams microphone PCM audio over a WebSocket to a Node
server that records it into a WAV file.

The definitions below are shallow embeddings of:
* `WebSocketService` (client connection state machine with retry logic),
* `AudioService.convertFloat32ToInt16` / `arrayBufferToBase64` (capture
  and framing path),
* the server's `ws.on('message')` AudioEvent decoder (`server.js`), and
* the `AudioRecorder` class (WAV streaming file writer).

JavaScript numbers are modelled as `Rat` (captured float samples are
exact binary rationals and the products involved fit in double
precision, so rational arithmetic reproduces the JS computations
exactly); machine 16/32-bit words are modelled as `Int`/`Nat` with
explicit `% 2^w` arithmetic; files and transport payloads are byte
lists (`List Nat`, each entry < 256); the base64 `btoa` /
`Buffer.from(-, 'base64')` platform builtins are modelled by a standard
base64 codec over ASCII codes.
-/

/-! ## Client sample conversion: `AudioService.convertFloat32ToInt16` -/

/-- `AudioService.convertFloat32ToInt16`, one sample: clamp to `[-1, 1]`
(`Math.max(-1, Math.min(1, x))`), then `s < 0 ? s * 0x8000 : s * 0x7FFF`;
storing into an `Int16Array` truncates toward zero (`ToInt16`), which on
the clamped range is `Int.ceil` for negative and `Int.floor` for
nonnegative products. -/
def convertFloat32ToInt16 (x : Rat) : Int :=
  let s := max (-1 : Rat) (min 1 x)
  if s < 0 then ⌈s * 32768⌉ else ⌊s * 32767⌋

/-- Two's-complement little-endian byte pair of an int16 value, as laid
out in `Int16Array` memory and as written by `Buffer.writeInt16LE`. -/
def int16ToBytesLE (n : Int) : List Nat :=
  [(n % 65536).toNat % 256, (n % 65536).toNat / 256]

/-- `Buffer.readInt16LE`: reassemble a signed 16-bit value from a
little-endian byte pair. -/
def int16OfLE (lo hi : Nat) : Int :=
  let v := lo + 256 * hi
  if v < 32768 then (v : Int) else (v : Int) - 65536

/-- The sample-extraction loop of the server's AudioEvent handler
(`server.js`): read consecutive little-endian signed 16-bit pairs,
dropping a single trailing byte when the byte count is odd
(the `i + 1 < audioBuffer.length` guard). -/
def readInt16LEPairs : List Nat → List Int
  | lo :: hi :: rest => int16OfLE lo hi :: readInt16LEPairs rest
  | _ => []

/-! ## Base64 transport codec (`btoa` / `Buffer.from(-, 'base64')`) -/

/-- Standard base64 alphabet: sextet value to ASCII code. -/
def encodeB64 (n : Nat) : Nat :=
  if n < 26 then 65 + n
  else if n < 52 then 97 + (n - 26)
  else if n < 62 then 48 + (n - 52)
  else if n = 62 then 43
  else 47

/-- Standard base64 alphabet: ASCII code back to sextet value. -/
def decodeB64 (c : Nat) : Nat :=
  if 65 ≤ c ∧ c ≤ 90 then c - 65
  else if 97 ≤ c ∧ c ≤ 122 then c - 97 + 26
  else if 48 ≤ c ∧ c ≤ 57 then c - 48 + 52
  else if c = 43 then 62
  else if c = 47 then 63
  else 0

/-- `btoa` over a byte sequence (as in `AudioService.arrayBufferToBase64`):
encode 3-byte groups into 4 sextet characters, padding the final partial
group with `'='` (ASCII 61). -/
def base64Encode : List Nat → List Nat
  | [] => []
  | [a] => [encodeB64 (a / 4), encodeB64 (a % 4 * 16), 61, 61]
  | [a, b] => [encodeB64 (a / 4), encodeB64 (a % 4 * 16 + b / 16), encodeB64 (b % 16 * 4), 61]
  | a :: b :: c :: rest =>
    encodeB64 (a / 4) :: encodeB64 (a % 4 * 16 + b / 16) ::
    encodeB64 (b % 16 * 4 + c / 64) :: encodeB64 (c % 64) :: base64Encode rest

/-- `Buffer.from(payload, 'base64')`: decode 4-character groups into 3
bytes, honouring `'='` (ASCII 61) padding in the final group. -/
def base64Decode : List Nat → List Nat
  | c1 :: c2 :: c3 :: c4 :: rest =>
    let s1 := decodeB64 c1
    let s2 := decodeB64 c2
    let s3 := decodeB64 c3
    let s4 := decodeB64 c4
    if c3 = 61 then [s1 * 4 + s2 / 16]
    else if c4 = 61 then [s1 * 4 + s2 / 16, s2 % 16 * 16 + s3 / 4]
    else (s1 * 4 + s2 / 16) :: (s2 % 16 * 16 + s3 / 4) :: (s3 % 4 * 64 + s4) :: base64Decode rest
  | _ => []

/-- Capture & Framer payload path: convert each captured sample to int16,
lay the int16 stream out as little-endian bytes (`Int16Array.buffer`) and
base64-encode it (`arrayBufferToBase64`). -/
def encodeClientPayload (l : List Rat) : List Nat :=
  base64Encode ((l.map (fun q => int16ToBytesLE (convertFloat32ToInt16 q))).flatten)

/-- Server Packet Decoder payload path: base64-decode the payload and
read consecutive little-endian signed 16-bit pairs. -/
def decodeServerSamples (payload : List Nat) : List Int :=
  readInt16LEPairs (base64Decode payload)

/-! ## Connection state machine: `WebSocketService` -/

/-- `ConnectionStatus` enum of `websocket.service.ts`. -/
inductive ConnectionStatus where
  | disconnected
  | connecting
  | connected
  | reconnecting
  | error
deriving DecidableEq, Repr

/-- Ready states of a live `WebSocket` handle that the service can
observe through its guards (`CONNECTING` / `OPEN`); the handle is nulled
on close, so no other ready state is ever stored. -/
inductive WsReady where
  | connecting
  | opened
deriving DecidableEq, Repr

/-- State of `WebSocketService`: the transport handle, retry counter,
the tracked `retryTimeout` handle, the multiset of actually pending
`setTimeout` callbacks as (id, delay-ms) pairs (a fresh id per
`setTimeout`; `this.retryTimeout` only remembers the most recent one),
the broadcast status, and the list of close codes passed to
`ws.close`. -/
structure SMState where
  ws : Option WsReady
  retryCount : Nat
  retryTimeout : Option Nat
  pending : List (Nat × Nat)
  nextId : Nat
  status : ConnectionStatus
  closeCalls : List Nat
deriving DecidableEq, Repr

/-- Initial service state: no socket, counter 0, no timer, status
`DISCONNECTED` (the `BehaviorSubject` initial value). -/
def smInit : SMState :=
  ⟨none, 0, none, [], 0, ConnectionStatus.disconnected, []⟩

/-- `WebSocketService.clearRetryTimeout`: `clearTimeout` on the tracked
handle (cancelling that timer if it is still pending) and null the
field. An untracked timer (whose handle was overwritten) is unaffected. -/
def clearRetryTimeout (s : SMState) : SMState :=
  match s.retryTimeout with
  | some id => { s with retryTimeout := none, pending := s.pending.filter (fun p => p.1 != id) }
  | none => s

/-- `WebSocketService.attemptConnection`: publish `RECONNECTING` when
`retryCount > 0` else `CONNECTING`, then open a new `WebSocket`. -/
def attemptConnection (s : SMState) : SMState :=
  { s with
    status := if s.retryCount > 0 then ConnectionStatus.reconnecting else ConnectionStatus.connecting,
    ws := some WsReady.connecting }

/-- `WebSocketService.connect`: no-op when a socket exists in `OPEN` or
`CONNECTING` state (the only states a stored handle can be in);
otherwise reset `retryCount` to 0 and attempt a connection. Note: it
does not call `clearRetryTimeout`. -/
def smConnect (s : SMState) : SMState :=
  if s.ws.isSome then s
  else attemptConnection { s with retryCount := 0 }

/-- `WebSocketService.handleReconnection`: while `retryCount <
maxRetries` (4), increment the counter, compute
`Math.min(1000 * 2^(retryCount - 1), 10000)` from the incremented
counter and schedule `attemptConnection` after that delay, overwriting
`this.retryTimeout` with the new handle; once exhausted, publish
`DISCONNECTED` and reset the counter. -/
def handleReconnection (s : SMState) : SMState :=
  if s.retryCount < 4 then
    { s with
      retryCount := s.retryCount + 1,
      retryTimeout := some s.nextId,
      pending := s.pending ++ [(s.nextId, min (1000 * 2 ^ (s.retryCount + 1 - 1)) 10000)],
      nextId := s.nextId + 1 }
  else
    { s with status := ConnectionStatus.disconnected, retryCount := 0 }

/-- `ws.onopen`: reset the counter, publish `CONNECTED`, clear the
tracked retry timer; the handle is now `OPEN`. -/
def onOpen (s : SMState) : SMState :=
  clearRetryTimeout
    { s with ws := some WsReady.opened, retryCount := 0, status := ConnectionStatus.connected }

/-- `ws.onclose`: null the handle; retry via `handleReconnection` unless
the close code is the normal-closure code 1000, in which case publish
`DISCONNECTED`. -/
def onClose (code : Nat) (s : SMState) : SMState :=
  let s' := { s with ws := none }
  if code = 1000 then { s' with status := ConnectionStatus.disconnected }
  else handleReconnection s'

/-- `ws.onerror`: publish `ERROR`; retry decisions are driven by the
separate close event. -/
def onError (s : SMState) : SMState :=
  { s with status := ConnectionStatus.error }

/-- `WebSocketService.disconnect`: clear the tracked retry timer, reset
the counter, close the socket (if any) with code 1000 and drop the
handle, publish `DISCONNECTED`. -/
def smDisconnect (s : SMState) : SMState :=
  let s1 := clearRetryTimeout s
  let s2 := { s1 with retryCount := 0 }
  let s3 :=
    if s2.ws.isSome then { s2 with ws := none, closeCalls := s2.closeCalls ++ [1000] }
    else s2
  { s3 with status := ConnectionStatus.disconnected }

/-- A pending `setTimeout` callback fires: the timer leaves the pending
set and `attemptConnection` runs. -/
def timerFire (id : Nat) (s : SMState) : SMState :=
  attemptConnection { s with pending := s.pending.filter (fun p => p.1 != id) }

/-- External events driving the service on its single-threaded timeline. -/
inductive Ev where
  | connect
  | disconnect
  | openOk
  | closeEvt (code : Nat)
  | errorEvt
  | timerFire (id : Nat)
deriving DecidableEq, Repr

/-- One event step; socket callbacks are only deliverable while a
matching handle is live, and a timer can only fire while pending. -/
def step (s : SMState) (e : Ev) : SMState :=
  match e with
  | Ev.connect => smConnect s
  | Ev.disconnect => smDisconnect s
  | Ev.openOk => if s.ws = some WsReady.connecting then onOpen s else s
  | Ev.closeEvt code => if s.ws.isSome then onClose code s else s
  | Ev.errorEvt => if s.ws.isSome then onError s else s
  | Ev.timerFire id => if s.pending.any (fun p => p.1 == id) then timerFire id s else s

/-- Run a sequence of events from a state. -/
def run (s : SMState) (es : List Ev) : SMState :=
  es.foldl step s

/-! ## Streaming file writer: `AudioRecorder` -/

/-- Audio format triple (`audio-config.json` shape). -/
structure AudioFormat where
  sampleRate : Nat
  channels : Nat
  bitDepth : Nat
deriving DecidableEq, Repr

/-- The packet handed to `AudioRecorder.writeAudioPacket` by the server's
message handler. `data = none` models a missing or non-array `data`
field (the `Array.isArray` guard); the format fields are `none` when
absent and `some 0` is treated as absent by the JS `||` defaults. -/
structure Packet where
  data : Option (List Int)
  sampleRate : Option Nat
  channels : Option Nat
  bitDepth : Option Nat
deriving DecidableEq, Repr

/-- JS `packet.field || defaultValue`: `undefined` and `0` are falsy. -/
def orDefault (v : Option Nat) (d : Nat) : Nat :=
  match v with
  | some n => if n = 0 then d else n
  | none => d

/-- `Buffer.writeUInt16LE`. -/
def u16le (v : Nat) : List Nat :=
  [v % 256, v / 256 % 256]

/-- `Buffer.writeUInt32LE`. -/
def u32le (v : Nat) : List Nat :=
  [v % 256, v / 256 % 256, v / 65536 % 256, v / 16777216 % 256]

/-- Bytes 8..39 of the WAV header written by `writeWavHeader`: `WAVE`
tag, `fmt ` sub-chunk (size 16, PCM format 1, channels, sample rate,
byte rate, block align, bit depth) and the `data` tag. They do not
depend on the data size. -/
def wavMiddle (fmt : AudioFormat) : List Nat :=
  [87, 65, 86, 69, 102, 109, 116, 32] ++ u32le 16 ++ u16le 1 ++ u16le fmt.channels ++
  u32le fmt.sampleRate ++ u32le (fmt.sampleRate * fmt.channels * (fmt.bitDepth / 8)) ++
  u16le (fmt.channels * (fmt.bitDepth / 8)) ++ u16le fmt.bitDepth ++ [100, 97, 116, 97]

/-- `AudioRecorder.writeWavHeader`: the 44-byte canonical header; the
RIFF size field holds `36 + dataSize` and the data size field holds
`dataSize`. -/
def writeWavHeader (fmt : AudioFormat) (dataSize : Nat) : List Nat :=
  [82, 73, 70, 70] ++ u32le (36 + dataSize) ++ wavMiddle fmt ++ u32le dataSize

/-- The header patch performed by `stopRecording`: copy the 44 header
bytes, rewrite bytes [4..8) with `dataSize + 36` and bytes [40..44)
with `dataSize`, keep the audio data. -/
def patchHeader (f : List Nat) (ds : Nat) : List Nat :=
  f.take 4 ++ u32le (ds + 36) ++ (f.drop 8).take 32 ++ u32le ds ++ f.drop 44

/-- Read back a 32-bit little-endian field at a byte offset. -/
def readU32LE (f : List Nat) (i : Nat) : Nat :=
  f.getD i 0 + 256 * f.getD (i + 1) 0 + 65536 * f.getD (i + 2) 0 + 16777216 * f.getD (i + 3) 0

/-- `Math.max(-32768, Math.min(32767, sample))` from `samplesToBuffer`. -/
def clampInt16 (n : Int) : Int :=
  max (-32768) (min 32767 n)

/-- `AudioRecorder.samplesToBuffer`: clamp each sample to the signed
16-bit range and serialize little-endian. -/
def samplesToBuffer : List Int → List Nat
  | [] => []
  | n :: rest => int16ToBytesLE (clampInt16 n) ++ samplesToBuffer rest

/-- In-memory state of an `AudioRecorder` together with the bytes of the
recording file it has produced so far. `recordingFile` /
`recordingStream` / `recordingStartTime` model the presence of the file
path, the write stream and the start timestamp. -/
structure RecorderState where
  isRecording : Bool
  recordingFile : Bool
  recordingStream : Bool
  recordingStartTime : Bool
  recordingPackets : Nat
  recordingBytes : Nat
  audioFormat : AudioFormat
  fileBytes : List Nat
deriving DecidableEq, Repr

/-- The `AudioRecorder` constructor state. -/
def initRecorder : RecorderState :=
  ⟨false, false, false, false, 0, 0, ⟨16000, 1, 16⟩, []⟩

/-- `AudioRecorder.startRecording`: no-op (with a diagnostic) when
already recording or when the server is not running; otherwise open the
file and write the 44-byte placeholder header with `dataSize = 0` from
the configured default format (the `headerWritten` guard makes the
header write happen exactly once regardless of which readiness path
fires first, so it is modelled as a single write). -/
def startRecording (cfg : AudioFormat) (serverRunning : Bool) (s : RecorderState) : RecorderState :=
  if s.isRecording then s
  else if serverRunning = false then s
  else
    { isRecording := true
      recordingFile := true
      recordingStream := true
      recordingStartTime := true
      recordingPackets := 0
      recordingBytes := 0
      audioFormat := cfg
      fileBytes := writeWavHeader cfg 0 }

/-- `AudioRecorder.writeAudioPacket`: no-op unless a session is active
with a writable stream; on the first packet fix the session format from
the packet fields (with falsy-default semantics); write and count the
packet only when `data` is a non-empty array. -/
def writeAudioPacket (cfg : AudioFormat) (p : Packet) (s : RecorderState) : RecorderState :=
  if s.isRecording = false then s
  else if s.recordingStream = false then s
  else
    let s' :=
      if s.recordingPackets = 0 then
        { s with audioFormat :=
            ⟨orDefault p.sampleRate cfg.sampleRate,
             orDefault p.channels cfg.channels,
             orDefault p.bitDepth cfg.bitDepth⟩ }
      else s
    match p.data with
    | some l =>
      if l.length > 0 then
        { s' with
          fileBytes := s'.fileBytes ++ samplesToBuffer l,
          recordingPackets := s'.recordingPackets + 1,
          recordingBytes := s'.recordingBytes + (samplesToBuffer l).length }
      else s'
    | none => s'

/-- How the asynchronous part of `stopRecording` can go: the normal
flow (`finish` fires, finalize succeeds or finds an empty recording),
an exception inside the finalize block (`readFileSync` /
`writeFileSync` throwing), or a stream `error` event before `finish`. -/
inductive StopFault where
  | okFlow
  | finalizeErr
  | streamErr
deriving DecidableEq, Repr

/-- The session-state reset performed by the `finally` block of the
`finish` handler in `stopRecording`. -/
def clearSession (s : RecorderState) : RecorderState :=
  { s with
    recordingStream := false
    recordingFile := false
    recordingStartTime := false
    recordingPackets := 0
    recordingBytes := 0 }

/-- `AudioRecorder.stopRecording`: resolve immediately when not
recording; otherwise mark inactive, flush, and on `finish` read the
file back: when `fileSize - 44 ≤ 0` treat it as an empty recording and
resolve without rewriting; otherwise patch the two size fields and
resolve. The `finally` block clears the session state on every path
through the `finish` handler; a finalize exception rejects, and a
stream `error` event rejects after nulling only the stream and file
fields. -/
def stopRecording (s : RecorderState) (f : StopFault) : Except Unit Unit × RecorderState :=
  if s.isRecording = false then (Except.ok (), s)
  else
    let s' := { s with isRecording := false }
    match f with
    | StopFault.streamErr =>
      (Except.error (), { s' with recordingStream := false, recordingFile := false })
    | StopFault.finalizeErr => (Except.error (), clearSession s')
    | StopFault.okFlow =>
      if s'.fileBytes.length ≤ 44 then (Except.ok (), clearSession s')
      else
        (Except.ok (),
          clearSession { s' with fileBytes := patchHeader s'.fileBytes (s'.fileBytes.length - 44) })

/-- A packet as built by the server's message handler from decoded
samples (`data` is always a present array there). -/
def mkDataPacket (l : List Int) : Packet :=
  ⟨some l, none, none, none⟩

/-- Fold a list of packets through `writeAudioPacket`. -/
def writeN (cfg : AudioFormat) (ps : List Packet) (s : RecorderState) : RecorderState :=
  ps.foldl (fun st p => writeAudioPacket cfg p st) s

/-! ## Theorems -/

theorem decodeB64_encodeB64 : ∀ n : Nat, n < 64 → decodeB64 (encodeB64 n) = n ∧ encodeB64 n ≠ 61 := by
  decide

theorem b64_aux : ∀ (m : Nat) (l : List Nat), l.length ≤ m → (∀ b ∈ l, b < 256) →
    base64Decode (base64Encode l) = l := by
  intro m
  induction m with
  | zero =>
    intro l hl _
    have h0 : l = [] := List.eq_nil_of_length_eq_zero (Nat.le_zero.mp hl)
    subst h0
    rfl
  | succ m ih =>
    intro l hl hb
    rcases l with _ | ⟨a, _ | ⟨b, _ | ⟨c, rest⟩⟩⟩
    · rfl
    · have ha : a < 256 := hb a (by simp)
      have h1 := decodeB64_encodeB64 (a / 4) (by omega)
      have h2 := decodeB64_encodeB64 (a % 4 * 16) (by omega)
      simp [base64Encode, base64Decode, h1.1, h2.1]
      omega
    · have ha : a < 256 := hb a (by simp)
      have hb' : b < 256 := hb b (by simp)
      have h1 := decodeB64_encodeB64 (a / 4) (by omega)
      have h2 := decodeB64_encodeB64 (a % 4 * 16 + b / 16) (by omega)
      have h3 := decodeB64_encodeB64 (b % 16 * 4) (by omega)
      simp [base64Encode, base64Decode, h1.1, h2.1, h3.1, h3.2]
      omega
    · have ha : a < 256 := hb a (by simp)
      have hb' : b < 256 := hb b (by simp)
      have hc : c < 256 := hb c (by simp)
      have h1 := decodeB64_encodeB64 (a / 4) (by omega)
      have h2 := decodeB64_encodeB64 (a % 4 * 16 + b / 16) (by omega)
      have h3 := decodeB64_encodeB64 (b % 16 * 4 + c / 64) (by omega)
      have h4 := decodeB64_encodeB64 (c % 64) (by omega)
      have hr : base64Decode (base64Encode rest) = rest := by
        apply ih rest
        · simp at hl
          omega
        · intro x hx
          exact hb x (by simp [hx])
      simp [base64Encode, base64Decode, h1.1, h2.1, h3.1, h4.1, h3.2, h4.2, hr]
      omega

theorem b64_roundtrip (l : List Nat) (h : ∀ b ∈ l, b < 256) :
    base64Decode (base64Encode l) = l :=
  b64_aux l.length l le_rfl h

theorem readPairs_cons (n : Int) (t : List Nat) (h1 : -32768 ≤ n) (h2 : n ≤ 32767) :
    readInt16LEPairs (int16ToBytesLE n ++ t) = n :: readInt16LEPairs t := by
  simp only [int16ToBytesLE, List.cons_append, List.nil_append, readInt16LEPairs]
  congr 1
  simp only [int16OfLE]
  split <;> omega

theorem readInt16LEPairs_flatten : ∀ (l : List Int), (∀ n ∈ l, -32768 ≤ n ∧ n ≤ 32767) →
    readInt16LEPairs ((l.map int16ToBytesLE).flatten) = l := by
  intro l
  induction l with
  | nil => intro _; rfl
  | cons n rest ih =>
    intro h
    have hn := h n (by simp)
    have hr := ih (fun x hx => h x (by simp [hx]))
    simp only [List.map_cons, List.flatten_cons]
    rw [readPairs_cons n _ hn.1 hn.2, hr]

theorem flatten_bytes_lt (l : List Int) : ∀ b ∈ (l.map int16ToBytesLE).flatten, b < 256 := by
  intro b hb
  simp only [List.mem_flatten, List.mem_map] at hb
  obtain ⟨_, ⟨n, _, rfl⟩, hb2⟩ := hb
  simp only [int16ToBytesLE, List.mem_cons, List.not_mem_nil, or_false] at hb2
  rcases hb2 with h | h <;> omega

theorem convertFloat32ToInt16_range (q : Rat) :
    -32768 ≤ convertFloat32ToInt16 q ∧ convertFloat32ToInt16 q ≤ 32767 := by
  simp only [convertFloat32ToInt16]
  set s := max (-1 : Rat) (min 1 q) with hs
  have hs1 : (-1 : Rat) ≤ s := le_max_left _ _
  have hs2 : s ≤ 1 := max_le (by norm_num) (min_le_left _ _)
  split
  next h =>
    constructor
    · have h0 : ((-32768 : Int) : Rat) ≤ s * 32768 := by push_cast; nlinarith
      calc (-32768 : Int) = ⌈((-32768 : Int) : Rat)⌉ := (Int.ceil_intCast _).symm
        _ ≤ ⌈s * 32768⌉ := Int.ceil_mono h0
    · have hle : s * 32768 ≤ ((0 : Int) : Rat) := by push_cast; nlinarith
      have h0 := Int.ceil_le.mpr hle
      omega
  next h =>
    push_neg at h
    constructor
    · have h0 : ((0 : Int) : Rat) ≤ s * 32767 := by push_cast; nlinarith
      have h1 := Int.le_floor.mpr h0
      omega
    · have h1 : s * 32767 ≤ ((32767 : Int) : Rat) := by push_cast; nlinarith
      calc ⌊s * 32767⌋ ≤ ⌊((32767 : Int) : Rat)⌋ := Int.floor_mono h1
        _ = 32767 := Int.floor_intCast _

theorem convertFloat32ToInt16_clamp_low (q : Rat) (h : q ≤ -1) :
    convertFloat32ToInt16 q = -32768 := by
  have h1 : min 1 q = q := min_eq_right (by linarith)
  have h2 : max (-1 : Rat) q = -1 := max_eq_left h
  simp only [convertFloat32ToInt16, h1, h2]
  rw [if_pos (by norm_num : (-1 : Rat) < 0),
    show ((-1 : Rat) * 32768) = ((-32768 : Int) : Rat) by norm_num, Int.ceil_intCast]

theorem convertFloat32ToInt16_clamp_high (q : Rat) (h : 1 ≤ q) :
    convertFloat32ToInt16 q = 32767 := by
  have h1 : min 1 q = 1 := min_eq_left h
  have h2 : max (-1 : Rat) (1 : Rat) = 1 := by norm_num
  simp only [convertFloat32ToInt16, h1, h2]
  rw [if_neg (by norm_num : ¬ (1 : Rat) < 0),
    show ((1 : Rat) * 32767) = ((32767 : Int) : Rat) by norm_num, Int.floor_intCast]

/-- C1: for every captured sample sequence, encoding through the Capture
& Framer path (clamp to `[-1,1]`, asymmetric scale to int16, pack bytes,
base64) and decoding through the server's Packet Decoder (base64 decode,
consecutive little-endian signed 16-bit pairs) yields exactly the int16
sample sequence the framer produced; every int16 sequence within range
(including the boundary values -32768 and 32767) survives the
byte/base64 round trip unchanged; and inputs outside `[-1, 1]` are
clamped to the boundary values. -/
theorem c1_encode_decode_roundtrip :
    (∀ l : List Rat, decodeServerSamples (encodeClientPayload l) = l.map convertFloat32ToInt16) ∧
    (∀ samples : List Int, (∀ n ∈ samples, -32768 ≤ n ∧ n ≤ 32767) →
      decodeServerSamples (base64Encode ((samples.map int16ToBytesLE).flatten)) = samples) ∧
    (∀ q : Rat, q ≤ -1 → convertFloat32ToInt16 q = -32768) ∧
    (∀ q : Rat, 1 ≤ q → convertFloat32ToInt16 q = 32767) := by
  have key : ∀ samples : List Int, (∀ n ∈ samples, -32768 ≤ n ∧ n ≤ 32767) →
      decodeServerSamples (base64Encode ((samples.map int16ToBytesLE).flatten)) = samples := by
    intro samples h
    unfold decodeServerSamples
    rw [b64_roundtrip _ (flatten_bytes_lt samples), readInt16LEPairs_flatten samples h]
  refine ⟨?_, key, convertFloat32ToInt16_clamp_low, convertFloat32ToInt16_clamp_high⟩
  intro l
  have hmap : (l.map (fun q => int16ToBytesLE (convertFloat32ToInt16 q)))
      = ((l.map convertFloat32ToInt16).map int16ToBytesLE) := by
    rw [List.map_map]
    rfl
  unfold encodeClientPayload
  rw [hmap]
  apply key
  intro n hn
  obtain ⟨q, _, rfl⟩ := List.mem_map.mp hn
  exact convertFloat32ToInt16_range q

/-- Witness for C1 at concrete inputs: the boundary-heavy int16 sequence
`[-32768, 32767, 0, -1]` survives the byte/base64 round trip, and the
out-of-range captured samples `-2` and `2` are clamped. -/
theorem c1_encode_decode_roundtrip_witness :
    decodeServerSamples
        (base64Encode (([(-32768 : Int), 32767, 0, -1].map int16ToBytesLE).flatten))
      = [-32768, 32767, 0, -1] ∧
    convertFloat32ToInt16 (-2) = -32768 ∧ convertFloat32ToInt16 2 = 32767 :=
  ⟨c1_encode_decode_roundtrip.2.1 [(-32768 : Int), 32767, 0, -1] (by decide),
   c1_encode_decode_roundtrip.2.2.1 (-2) (by norm_num),
   c1_encode_decode_roundtrip.2.2.2 2 (by norm_num)⟩

/-- C3: for every `RetryCounter` value n in 1..4 (the value after the
increment in `handleReconnection`), the reconnection procedure appends a
timer whose delay is `min(1000 * 2^(n-1), 10000)` ms, and these delays
enumerate to 1000, 2000, 4000, 8000 ms. -/
theorem c3_reconnect_delay : ∀ (n : Nat) (s : SMState), 1 ≤ n → n ≤ 4 → s.retryCount = n - 1 →
    (handleReconnection s).pending
      = s.pending ++ [(s.nextId, min (1000 * 2 ^ (n - 1)) 10000)] ∧
    min (1000 * 2 ^ (n - 1)) 10000 = [1000, 2000, 4000, 8000].getD (n - 1) 0 := by
  intro n s h1 h2 h3
  have hlt : s.retryCount < 4 := by omega
  constructor
  · simp only [handleReconnection, if_pos hlt]
    have e : s.retryCount + 1 - 1 = n - 1 := by omega
    rw [e]
  · interval_cases n <;> decide

/-- Witness for C3 at n = 3 from a state with `retryCount = 2`. -/
theorem c3_reconnect_delay_witness :
    (handleReconnection ⟨none, 2, none, [], 7, ConnectionStatus.connecting, []⟩).pending
      = [] ++ [(7, min (1000 * 2 ^ (3 - 1)) 10000)] ∧
    min (1000 * 2 ^ (3 - 1)) 10000 = [1000, 2000, 4000, 8000].getD (3 - 1) 0 :=
  c3_reconnect_delay 3 ⟨none, 2, none, [], 7, ConnectionStatus.connecting, []⟩
    (by decide) (by decide) rfl

/-- C4 counterexample: after a `Connect()` and exactly 4 consecutive
abnormal close events (each retry timer firing in between, as it must
for a further socket to exist and close), the service is still
`RECONNECTING` with `retryCount = 4` and a 4th retry pending — not
`Disconnected` with the counter at 0 as the claim states; the give-up
transition only happens on the 5th abnormal close. -/
theorem c4_counterexample_four_closes :
    (run smInit [Ev.connect, Ev.closeEvt 1006, Ev.timerFire 0, Ev.closeEvt 1006,
        Ev.timerFire 1, Ev.closeEvt 1006, Ev.timerFire 2, Ev.closeEvt 1006]).retryCount = 4 ∧
    (run smInit [Ev.connect, Ev.closeEvt 1006, Ev.timerFire 0, Ev.closeEvt 1006,
        Ev.timerFire 1, Ev.closeEvt 1006, Ev.timerFire 2, Ev.closeEvt 1006]).status
      = ConnectionStatus.reconnecting ∧
    ¬ ((run smInit [Ev.connect, Ev.closeEvt 1006, Ev.timerFire 0, Ev.closeEvt 1006,
        Ev.timerFire 1, Ev.closeEvt 1006, Ev.timerFire 2, Ev.closeEvt 1006]).status
        = ConnectionStatus.disconnected ∧
      (run smInit [Ev.connect, Ev.closeEvt 1006, Ev.timerFire 0, Ev.closeEvt 1006,
        Ev.timerFire 1, Ev.closeEvt 1006, Ev.timerFire 2, Ev.closeEvt 1006]).retryCount = 0) := by
  decide

theorem step_close_abnormal (s : SMState) (c : Nat) (hw : s.ws = some WsReady.connecting)
    (hc : c ≠ 1000) : step s (Ev.closeEvt c) = handleReconnection { s with ws := none } := by
  simp [step, hw, onClose, hc]

/-- C4 amended: after a `Connect()` and exactly 5 consecutive abnormal
close events (the initial attempt plus the 4 scheduled retries each
closing abnormally), the state returns to `Disconnected` with
`retryCount = 0` and no pending timer, and a subsequent `Connect()`
starts the retry sequence fresh from `retryCount = 0`. -/
theorem c4_amended_five_closes (c1 c2 c3 c4 c5 : Nat)
    (h1 : c1 ≠ 1000) (h2 : c2 ≠ 1000) (h3 : c3 ≠ 1000) (h4 : c4 ≠ 1000) (h5 : c5 ≠ 1000) :
    (run smInit [Ev.connect, Ev.closeEvt c1, Ev.timerFire 0, Ev.closeEvt c2, Ev.timerFire 1,
        Ev.closeEvt c3, Ev.timerFire 2, Ev.closeEvt c4, Ev.timerFire 3, Ev.closeEvt c5]).status
      = ConnectionStatus.disconnected ∧
    (run smInit [Ev.connect, Ev.closeEvt c1, Ev.timerFire 0, Ev.closeEvt c2, Ev.timerFire 1,
        Ev.closeEvt c3, Ev.timerFire 2, Ev.closeEvt c4, Ev.timerFire 3, Ev.closeEvt c5]).retryCount
      = 0 ∧
    (run smInit [Ev.connect, Ev.closeEvt c1, Ev.timerFire 0, Ev.closeEvt c2, Ev.timerFire 1,
        Ev.closeEvt c3, Ev.timerFire 2, Ev.closeEvt c4, Ev.timerFire 3, Ev.closeEvt c5]).pending
      = [] ∧
    (step (run smInit [Ev.connect, Ev.closeEvt c1, Ev.timerFire 0, Ev.closeEvt c2, Ev.timerFire 1,
        Ev.closeEvt c3, Ev.timerFire 2, Ev.closeEvt c4, Ev.timerFire 3, Ev.closeEvt c5])
        Ev.connect).status = ConnectionStatus.connecting ∧
    (step (run smInit [Ev.connect, Ev.closeEvt c1, Ev.timerFire 0, Ev.closeEvt c2, Ev.timerFire 1,
        Ev.closeEvt c3, Ev.timerFire 2, Ev.closeEvt c4, Ev.timerFire 3, Ev.closeEvt c5])
        Ev.connect).retryCount = 0 := by
  have r1 : step smInit Ev.connect
      = (⟨some WsReady.connecting, 0, none, [], 0, ConnectionStatus.connecting, []⟩ : SMState) :=
    rfl
  have r2 : step (⟨some WsReady.connecting, 0, none, [], 0, ConnectionStatus.connecting,
        []⟩ : SMState) (Ev.closeEvt c1)
      = (⟨none, 1, some 0, [(0, 1000)], 1, ConnectionStatus.connecting, []⟩ : SMState) := by
    rw [step_close_abnormal _ c1 rfl h1]
    rfl
  have r3 : step (⟨none, 1, some 0, [(0, 1000)], 1, ConnectionStatus.connecting, []⟩ : SMState)
        (Ev.timerFire 0)
      = (⟨some WsReady.connecting, 1, some 0, [], 1, ConnectionStatus.reconnecting,
          []⟩ : SMState) := rfl
  have r4 : step (⟨some WsReady.connecting, 1, some 0, [], 1, ConnectionStatus.reconnecting,
        []⟩ : SMState) (Ev.closeEvt c2)
      = (⟨none, 2, some 1, [(1, 2000)], 2, ConnectionStatus.reconnecting, []⟩ : SMState) := by
    rw [step_close_abnormal _ c2 rfl h2]
    rfl
  have r5 : step (⟨none, 2, some 1, [(1, 2000)], 2, ConnectionStatus.reconnecting, []⟩ : SMState)
        (Ev.timerFire 1)
      = (⟨some WsReady.connecting, 2, some 1, [], 2, ConnectionStatus.reconnecting,
          []⟩ : SMState) := rfl
  have r6 : step (⟨some WsReady.connecting, 2, some 1, [], 2, ConnectionStatus.reconnecting,
        []⟩ : SMState) (Ev.closeEvt c3)
      = (⟨none, 3, some 2, [(2, 4000)], 3, ConnectionStatus.reconnecting, []⟩ : SMState) := by
    rw [step_close_abnormal _ c3 rfl h3]
    rfl
  have r7 : step (⟨none, 3, some 2, [(2, 4000)], 3, ConnectionStatus.reconnecting, []⟩ : SMState)
        (Ev.timerFire 2)
      = (⟨some WsReady.connecting, 3, some 2, [], 3, ConnectionStatus.reconnecting,
          []⟩ : SMState) := rfl
  have r8 : step (⟨some WsReady.connecting, 3, some 2, [], 3, ConnectionStatus.reconnecting,
        []⟩ : SMState) (Ev.closeEvt c4)
      = (⟨none, 4, some 3, [(3, 8000)], 4, ConnectionStatus.reconnecting, []⟩ : SMState) := by
    rw [step_close_abnormal _ c4 rfl h4]
    rfl
  have r9 : step (⟨none, 4, some 3, [(3, 8000)], 4, ConnectionStatus.reconnecting, []⟩ : SMState)
        (Ev.timerFire 3)
      = (⟨some WsReady.connecting, 4, some 3, [], 4, ConnectionStatus.reconnecting,
          []⟩ : SMState) := rfl
  have r10 : step (⟨some WsReady.connecting, 4, some 3, [], 4, ConnectionStatus.reconnecting,
        []⟩ : SMState) (Ev.closeEvt c5)
      = (⟨none, 0, some 3, [], 4, ConnectionStatus.disconnected, []⟩ : SMState) := by
    rw [step_close_abnormal _ c5 rfl h5]
    rfl
  have hrun : run smInit [Ev.connect, Ev.closeEvt c1, Ev.timerFire 0, Ev.closeEvt c2,
        Ev.timerFire 1, Ev.closeEvt c3, Ev.timerFire 2, Ev.closeEvt c4, Ev.timerFire 3,
        Ev.closeEvt c5]
      = step (step (step (step (step (step (step (step (step (step smInit Ev.connect)
          (Ev.closeEvt c1)) (Ev.timerFire 0)) (Ev.closeEvt c2)) (Ev.timerFire 1))
          (Ev.closeEvt c3)) (Ev.timerFire 2)) (Ev.closeEvt c4)) (Ev.timerFire 3))
          (Ev.closeEvt c5) := rfl
  rw [hrun, r1, r2, r3, r4, r5, r6, r7, r8, r9, r10]
  exact ⟨rfl, rfl, rfl, rfl, rfl⟩

/-- Witness for the amended C4 with all five abnormal close codes 1006. -/
theorem c4_amended_five_closes_witness :
    (run smInit [Ev.connect, Ev.closeEvt 1006, Ev.timerFire 0, Ev.closeEvt 1006, Ev.timerFire 1,
        Ev.closeEvt 1006, Ev.timerFire 2, Ev.closeEvt 1006, Ev.timerFire 3,
        Ev.closeEvt 1006]).status = ConnectionStatus.disconnected ∧
    (run smInit [Ev.connect, Ev.closeEvt 1006, Ev.timerFire 0, Ev.closeEvt 1006, Ev.timerFire 1,
        Ev.closeEvt 1006, Ev.timerFire 2, Ev.closeEvt 1006, Ev.timerFire 3,
        Ev.closeEvt 1006]).retryCount = 0 ∧
    (run smInit [Ev.connect, Ev.closeEvt 1006, Ev.timerFire 0, Ev.closeEvt 1006, Ev.timerFire 1,
        Ev.closeEvt 1006, Ev.timerFire 2, Ev.closeEvt 1006, Ev.timerFire 3,
        Ev.closeEvt 1006]).pending = [] ∧
    (step (run smInit [Ev.connect, Ev.closeEvt 1006, Ev.timerFire 0, Ev.closeEvt 1006,
        Ev.timerFire 1, Ev.closeEvt 1006, Ev.timerFire 2, Ev.closeEvt 1006, Ev.timerFire 3,
        Ev.closeEvt 1006]) Ev.connect).status = ConnectionStatus.connecting ∧
    (step (run smInit [Ev.connect, Ev.closeEvt 1006, Ev.timerFire 0, Ev.closeEvt 1006,
        Ev.timerFire 1, Ev.closeEvt 1006, Ev.timerFire 2, Ev.closeEvt 1006, Ev.timerFire 3,
        Ev.closeEvt 1006]) Ev.connect).retryCount = 0 :=
  c4_amended_five_closes 1006 1006 1006 1006 1006
    (by decide) (by decide) (by decide) (by decide) (by decide)

theorem clearRetryTimeout_retryTimeout (s : SMState) :
    (clearRetryTimeout s).retryTimeout = none := by
  rcases h : s.retryTimeout with _ | id <;> simp [clearRetryTimeout, h]

theorem clearRetryTimeout_not_mem (s : SMState) (id d : Nat) (h : s.retryTimeout = some id) :
    (id, d) ∉ (clearRetryTimeout s).pending := by
  simp [clearRetryTimeout, h, List.mem_filter]

theorem clearRetryTimeout_all_tracked (s : SMState)
    (h : ∀ p ∈ s.pending, s.retryTimeout = some p.1) :
    (clearRetryTimeout s).pending = [] := by
  rcases hrt : s.retryTimeout with _ | id
  · have hnil : s.pending = [] := by
      cases hp : s.pending with
      | nil => rfl
      | cons q t =>
        have := h q (by simp [hp])
        rw [hrt] at this
        exact absurd this (by simp)
    simp [clearRetryTimeout, hrt, hnil]
  · simp only [clearRetryTimeout, hrt]
    rw [List.filter_eq_nil_iff]
    intro p hp
    have hpq := h p hp
    rw [hrt] at hpq
    have : p.1 = id := by
      injection hpq with h2
      omega
    simp [this]

theorem smDisconnect_fields (s : SMState) :
    (smDisconnect s).status = ConnectionStatus.disconnected ∧
    (smDisconnect s).retryCount = 0 ∧
    (smDisconnect s).ws = none ∧
    (smDisconnect s).retryTimeout = (clearRetryTimeout s).retryTimeout ∧
    (smDisconnect s).pending = (clearRetryTimeout s).pending ∧
    (smDisconnect s).closeCalls = s.closeCalls ++ (if s.ws.isSome then [1000] else []) := by
  rcases hws : s.ws with _ | w <;> rcases hrt : s.retryTimeout with _ | id <;>
    simp [smDisconnect, clearRetryTimeout, hws, hrt]

/-- C5 counterexample: `Connect()` does not cancel a pending retry
timer — after `[connect, abnormal close, connect]` the retry timer
scheduled by the close is still pending — and a state with two retry
timers pending simultaneously is reachable, so the claimed "at most one
pending timer at every reachable state" invariant fails. -/
theorem c5_counterexample_two_timers :
    (run smInit [Ev.connect, Ev.closeEvt 1006, Ev.connect]).pending ≠ [] ∧
    (run smInit [Ev.connect, Ev.closeEvt 1006, Ev.connect, Ev.closeEvt 1006]).pending.length
      = 2 := by
  decide

/-- C5 amended: only the tracked (most recently scheduled) retry timer
is cancelable; `Disconnect()` cancels it, so it never fires afterwards,
and nulls the tracked handle. `Connect()` does not cancel pending
timers, and two retry timers can be pending at once (a reachable state
reached by a `Connect()` issued while a retry was pending, whose socket
then closes abnormally), so a stale scheduled attempt can fire after a
newer action has changed state. -/
theorem c5_disconnect_cancels_tracked :
    (∀ (s : SMState) (id d : Nat), s.retryTimeout = some id →
      ((id, d) ∉ (smDisconnect s).pending ∧ (smDisconnect s).retryTimeout = none)) ∧
    (run smInit [Ev.connect, Ev.closeEvt 1006, Ev.connect, Ev.closeEvt 1006]).pending.length
      = 2 := by
  constructor
  · intro s id d h
    obtain ⟨-, -, -, h4, h5, -⟩ := smDisconnect_fields s
    constructor
    · rw [h5]
      exact clearRetryTimeout_not_mem s id d h
    · rw [h4, clearRetryTimeout_retryTimeout]
  · decide

/-- Witness for the amended C5: after `[connect, abnormal close]` the
tracked timer is id 0 with delay 1000 ms, and `Disconnect()` removes it
from the pending set and nulls the handle. -/
theorem c5_disconnect_cancels_tracked_witness :
    (0, 1000) ∉ (smDisconnect (run smInit [Ev.connect, Ev.closeEvt 1006])).pending ∧
    (smDisconnect (run smInit [Ev.connect, Ev.closeEvt 1006])).retryTimeout = none :=
  c5_disconnect_cancels_tracked.1 (run smInit [Ev.connect, Ev.closeEvt 1006]) 0 1000 (by decide)

/-- C6 counterexample: from the reachable two-pending-timer state,
`Disconnect()` transitions to `Disconnected` but leaves the untracked
retry timer pending, and when it later fires the scheduled attempt runs
and moves the state to `Connecting` — i.e. a previously scheduled
attempt does fire after `Disconnect()`. -/
theorem c6_counterexample_stale_timer_fires :
    (run smInit [Ev.connect, Ev.closeEvt 1006, Ev.connect, Ev.closeEvt 1006,
        Ev.disconnect]).status = ConnectionStatus.disconnected ∧
    (run smInit [Ev.connect, Ev.closeEvt 1006, Ev.connect, Ev.closeEvt 1006,
        Ev.disconnect]).pending ≠ [] ∧
    (run smInit [Ev.connect, Ev.closeEvt 1006, Ev.connect, Ev.closeEvt 1006, Ev.disconnect,
        Ev.timerFire 0]).status = ConnectionStatus.connecting := by
  decide

/-- C6 amended: `Disconnect()` in any state transitions to
`Disconnected`, resets `retryCount` to 0, drops the transport after
closing it (when one exists) with the normal-closure code 1000, nulls
the tracked retry-timer handle and cancels that timer so it never
fires; and when every pending timer is the tracked one (in particular
when at most one is pending), no previously scheduled attempt survives
`Disconnect()`. An untracked stale timer, however, is not cancelled. -/
theorem c6_disconnect_contract (s : SMState) :
    (smDisconnect s).status = ConnectionStatus.disconnected ∧
    (smDisconnect s).retryCount = 0 ∧
    (smDisconnect s).ws = none ∧
    (smDisconnect s).retryTimeout = none ∧
    (smDisconnect s).closeCalls = s.closeCalls ++ (if s.ws.isSome then [1000] else []) ∧
    (∀ id d, s.retryTimeout = some id → (id, d) ∉ (smDisconnect s).pending) ∧
    ((∀ p ∈ s.pending, s.retryTimeout = some p.1) → (smDisconnect s).pending = []) := by
  obtain ⟨h1, h2, h3, h4, h5, h6⟩ := smDisconnect_fields s
  refine ⟨h1, h2, h3, ?_, h6, ?_, ?_⟩
  · rw [h4, clearRetryTimeout_retryTimeout]
  · intro id d h
    rw [h5]
    exact clearRetryTimeout_not_mem s id d h
  · intro h
    rw [h5]
    exact clearRetryTimeout_all_tracked s h

/-- Witness for the amended C6 at the reachable state after
`[connect, abnormal close]`: disconnect lands in `Disconnected`, cancels
the tracked timer (0, 1000), and empties the pending set since the
tracked timer was the only one. -/
theorem c6_disconnect_contract_witness :
    (smDisconnect (run smInit [Ev.connect, Ev.closeEvt 1006])).status
      = ConnectionStatus.disconnected ∧
    (0, 1000) ∉ (smDisconnect (run smInit [Ev.connect, Ev.closeEvt 1006])).pending ∧
    (smDisconnect (run smInit [Ev.connect, Ev.closeEvt 1006])).pending = [] :=
  ⟨(c6_disconnect_contract (run smInit [Ev.connect, Ev.closeEvt 1006])).1,
   (c6_disconnect_contract (run smInit [Ev.connect, Ev.closeEvt 1006])).2.2.2.2.2.1 0 1000
     (by decide),
   (c6_disconnect_contract (run smInit [Ev.connect, Ev.closeEvt 1006])).2.2.2.2.2.2 (by decide)⟩

theorem samplesToBuffer_length (l : List Int) : (samplesToBuffer l).length = 2 * l.length := by
  induction l with
  | nil => rfl
  | cons n rest ih =>
    simp only [samplesToBuffer, int16ToBytesLE, List.cons_append, List.nil_append,
      List.length_cons, ih]
    omega

theorem writeWavHeader_length (fmt : AudioFormat) (ds : Nat) :
    (writeWavHeader fmt ds).length = 44 := rfl

theorem writeAudioPacket_mkData (cfg : AudioFormat) (l : List Int) (s : RecorderState)
    (h1 : s.isRecording = true) (h2 : s.recordingStream = true) :
    (writeAudioPacket cfg (mkDataPacket l) s).fileBytes = s.fileBytes ++ samplesToBuffer l ∧
    (writeAudioPacket cfg (mkDataPacket l) s).isRecording = true ∧
    (writeAudioPacket cfg (mkDataPacket l) s).recordingStream = true := by
  by_cases hp : s.recordingPackets = 0 <;> rcases l with _ | ⟨x, xs⟩ <;>
    simp [writeAudioPacket, mkDataPacket, h1, h2, hp, samplesToBuffer]

theorem writeN_mkData (cfg : AudioFormat) :
    ∀ (pkts : List (List Int)) (s : RecorderState), s.isRecording = true →
      s.recordingStream = true →
      (writeN cfg (pkts.map mkDataPacket) s).fileBytes
        = s.fileBytes ++ (pkts.map samplesToBuffer).flatten ∧
      (writeN cfg (pkts.map mkDataPacket) s).isRecording = true ∧
      (writeN cfg (pkts.map mkDataPacket) s).recordingStream = true := by
  intro pkts
  induction pkts with
  | nil => intro s h1 h2; simp [writeN, h1, h2]
  | cons l rest ih =>
    intro s h1 h2
    obtain ⟨f1, f2, f3⟩ := writeAudioPacket_mkData cfg l s h1 h2
    have hw : writeN cfg ((l :: rest).map mkDataPacket) s
        = writeN cfg (rest.map mkDataPacket) (writeAudioPacket cfg (mkDataPacket l) s) := rfl
    rw [hw]
    obtain ⟨g1, g2, g3⟩ := ih (writeAudioPacket cfg (mkDataPacket l) s) f2 f3
    rw [g1, f1]
    exact ⟨by simp [List.append_assoc], g2, g3⟩

theorem flatten_samples_length (K : Nat) : ∀ (pkts : List (List Int)),
    (∀ l ∈ pkts, l.length = K) →
    ((pkts.map samplesToBuffer).flatten).length = pkts.length * (2 * K) := by
  intro pkts
  induction pkts with
  | nil => intro _; simp
  | cons l rest ih =>
    intro h
    have h1 : l.length = K := h l (by simp)
    have h2 := ih (fun x hx => h x (by simp [hx]))
    simp only [List.map_cons, List.flatten_cons, List.length_append, List.length_cons,
      samplesToBuffer_length, h1, h2]
    ring

theorem patchHeader_writeWavHeader (fmt : AudioFormat) (d ds : Nat) (body : List Nat) :
    patchHeader (writeWavHeader fmt d ++ body) ds = writeWavHeader fmt ds ++ body := by
  have h1 : (writeWavHeader fmt d ++ body).take 4 = [82, 73, 70, 70] := rfl
  have h2 : ((writeWavHeader fmt d ++ body).drop 8).take 32 = wavMiddle fmt := rfl
  have h3 : (writeWavHeader fmt d ++ body).drop 44 = body := rfl
  show (writeWavHeader fmt d ++ body).take 4 ++ u32le (ds + 36)
      ++ ((writeWavHeader fmt d ++ body).drop 8).take 32 ++ u32le ds
      ++ (writeWavHeader fmt d ++ body).drop 44
    = writeWavHeader fmt ds ++ body
  rw [h1, h2, h3, Nat.add_comm ds 36, writeWavHeader]

theorem readU32LE_header_riff (fmt : AudioFormat) (ds : Nat) (body : List Nat) :
    readU32LE (writeWavHeader fmt ds ++ body) 4
      = (36 + ds) % 256 + 256 * ((36 + ds) / 256 % 256) + 65536 * ((36 + ds) / 65536 % 256)
        + 16777216 * ((36 + ds) / 16777216 % 256) := rfl

theorem readU32LE_header_data (fmt : AudioFormat) (ds : Nat) (body : List Nat) :
    readU32LE (writeWavHeader fmt ds ++ body) 40
      = ds % 256 + 256 * (ds / 256 % 256) + 65536 * (ds / 65536 % 256)
        + 16777216 * (ds / 16777216 % 256) := rfl

theorem u32_readback (v : Nat) (h : v < 4294967296) :
    v % 256 + 256 * (v / 256 % 256) + 65536 * (v / 65536 % 256)
      + 16777216 * (v / 16777216 % 256) = v := by
  omega

theorem stopRecording_ok_small (s : RecorderState) (h : s.isRecording = true)
    (hlen : s.fileBytes.length ≤ 44) :
    stopRecording s StopFault.okFlow
      = (Except.ok (), clearSession { s with isRecording := false }) := by
  simp [stopRecording, h, hlen]

theorem stopRecording_ok_patch (s : RecorderState) (h : s.isRecording = true)
    (hlen : ¬ s.fileBytes.length ≤ 44) :
    stopRecording s StopFault.okFlow
      = (Except.ok (), clearSession
          { s with
            isRecording := false
            fileBytes := patchHeader s.fileBytes (s.fileBytes.length - 44) }) := by
  simp [stopRecording, h, hlen]


/-- C2: for every session in which N packets of K samples each are
written and then `Stop()` finalizes normally, the resulting file's RIFF
size field (bytes [4..8)) equals `36 + N*K*2` and its data size field
(bytes [40..44)) equals `N*K*2`, patched in after all bytes are flushed
(for N*K = 0 the placeholder fields already carry those values and the
empty-recording branch leaves them untouched). -/
theorem c2_wav_finalize_sizes (cfg : AudioFormat) (K : Nat) (pkts : List (List Int))
    (hK : ∀ l ∈ pkts, l.length = K) (hfit : 36 + pkts.length * K * 2 < 4294967296) :
    readU32LE ((stopRecording (writeN cfg (pkts.map mkDataPacket)
        (startRecording cfg true initRecorder)) StopFault.okFlow).2.fileBytes) 4
      = 36 + pkts.length * K * 2 ∧
    readU32LE ((stopRecording (writeN cfg (pkts.map mkDataPacket)
        (startRecording cfg true initRecorder)) StopFault.okFlow).2.fileBytes) 40
      = pkts.length * K * 2 := by
  obtain ⟨hfb, hrec, hstr⟩ :=
    writeN_mkData cfg pkts (startRecording cfg true initRecorder) rfl rfl
  have hfb' : (writeN cfg (pkts.map mkDataPacket)
        (startRecording cfg true initRecorder)).fileBytes
      = writeWavHeader cfg 0 ++ (pkts.map samplesToBuffer).flatten := hfb
  have hlen0 : (pkts.map samplesToBuffer).flatten.length = pkts.length * K * 2 := by
    rw [flatten_samples_length K pkts hK]
    ring
  have hflen : (writeN cfg (pkts.map mkDataPacket)
        (startRecording cfg true initRecorder)).fileBytes.length
      = 44 + pkts.length * K * 2 := by
    rw [hfb', List.length_append, writeWavHeader_length, hlen0]
  generalize hM : pkts.length * K * 2 = M at hflen hfit hlen0 ⊢
  by_cases hz : M = 0
  · have hsmall : (writeN cfg (pkts.map mkDataPacket)
        (startRecording cfg true initRecorder)).fileBytes.length ≤ 44 := by omega
    rw [stopRecording_ok_small _ hrec hsmall]
    show readU32LE (writeN cfg (pkts.map mkDataPacket)
          (startRecording cfg true initRecorder)).fileBytes 4 = 36 + M ∧
      readU32LE (writeN cfg (pkts.map mkDataPacket)
          (startRecording cfg true initRecorder)).fileBytes 40 = M
    have hbody : (pkts.map samplesToBuffer).flatten = [] := by
      rw [← List.length_eq_zero, hlen0]
      exact hz
    rw [hfb', hbody]
    constructor
    · rw [readU32LE_header_riff]
      omega
    · rw [readU32LE_header_data]
      omega
  · have hbig : ¬ (writeN cfg (pkts.map mkDataPacket)
        (startRecording cfg true initRecorder)).fileBytes.length ≤ 44 := by omega
    rw [stopRecording_ok_patch _ hrec hbig]
    show readU32LE (patchHeader (writeN cfg (pkts.map mkDataPacket)
          (startRecording cfg true initRecorder)).fileBytes
          ((writeN cfg (pkts.map mkDataPacket)
            (startRecording cfg true initRecorder)).fileBytes.length - 44)) 4 = 36 + M ∧
      readU32LE (patchHeader (writeN cfg (pkts.map mkDataPacket)
          (startRecording cfg true initRecorder)).fileBytes
          ((writeN cfg (pkts.map mkDataPacket)
            (startRecording cfg true initRecorder)).fileBytes.length - 44)) 40 = M
    have hds : (writeN cfg (pkts.map mkDataPacket)
        (startRecording cfg true initRecorder)).fileBytes.length - 44 = M := by omega
    rw [hds, hfb', patchHeader_writeWavHeader]
    constructor
    · rw [readU32LE_header_riff]
      omega
    · rw [readU32LE_header_data]
      omega

/-- Witness for C2: a session with 2 packets of 3 samples each ends with
RIFF size field 36 + 12 and data size field 12. -/
theorem c2_wav_finalize_sizes_witness :
    readU32LE ((stopRecording (writeN ⟨16000, 1, 16⟩
        ([[1, 2, 3], [4, 5, 6]].map mkDataPacket)
        (startRecording ⟨16000, 1, 16⟩ true initRecorder)) StopFault.okFlow).2.fileBytes) 4
      = 36 + [[1, 2, 3], [4, 5, 6]].length * 3 * 2 ∧
    readU32LE ((stopRecording (writeN ⟨16000, 1, 16⟩
        ([[1, 2, 3], [4, 5, 6]].map mkDataPacket)
        (startRecording ⟨16000, 1, 16⟩ true initRecorder)) StopFault.okFlow).2.fileBytes) 40
      = [[1, 2, 3], [4, 5, 6]].length * 3 * 2 :=
  c2_wav_finalize_sizes ⟨16000, 1, 16⟩ 3 [[1, 2, 3], [4, 5, 6]] (by decide) (by norm_num)

/-- C7: stopping a session with zero packets written leaves a file that
is exactly the 44-byte placeholder header — no size-field rewrite is
performed — and `Stop()` still resolves successfully. -/
theorem c7_stop_empty_recording (cfg : AudioFormat) :
    (stopRecording (startRecording cfg true initRecorder) StopFault.okFlow).1 = Except.ok () ∧
    (stopRecording (startRecording cfg true initRecorder) StopFault.okFlow).2.fileBytes
      = writeWavHeader cfg 0 ∧
    (writeWavHeader cfg 0).length = 44 := by
  have h := stopRecording_ok_small (startRecording cfg true initRecorder) rfl
    (le_of_eq (writeWavHeader_length cfg 0))
  rw [h]
  exact ⟨rfl, rfl, writeWavHeader_length cfg 0⟩

/-- C8: for every enumerated outcome of `Stop()` on an active session —
successful finalize, empty recording (both covered by the normal flow),
or an I/O failure inside the finalize block (surfaced as an error to the
caller) — the in-memory session state (`isRecording`,
`recordingStream`, `recordingFile`, `recordingStartTime` and both
counters) is cleared, so a new session can be started afterward. -/
theorem c8_stop_clears_session (cfg : AudioFormat) (s : RecorderState) (f : StopFault)
    (hrec : s.isRecording = true) (hf : f ≠ StopFault.streamErr) :
    (stopRecording s f).2.isRecording = false ∧
    (stopRecording s f).2.recordingStream = false ∧
    (stopRecording s f).2.recordingFile = false ∧
    (stopRecording s f).2.recordingStartTime = false ∧
    (stopRecording s f).2.recordingPackets = 0 ∧
    (stopRecording s f).2.recordingBytes = 0 ∧
    (f = StopFault.finalizeErr → (stopRecording s f).1 = Except.error ()) ∧
    (f = StopFault.okFlow → (stopRecording s f).1 = Except.ok ()) ∧
    (startRecording cfg true (stopRecording s f).2).isRecording = true := by
  rcases f with _ | _ | _
  · by_cases hlen : s.fileBytes.length ≤ 44 <;>
      simp [stopRecording, hrec, hlen, clearSession, startRecording]
  · simp [stopRecording, hrec, clearSession, startRecording]
  · exact absurd rfl hf

/-- Witness for C8: stopping a freshly started session through the
normal flow clears the session fields and allows a new start. -/
theorem c8_stop_clears_session_witness :
    (stopRecording (startRecording ⟨16000, 1, 16⟩ true initRecorder)
        StopFault.okFlow).2.isRecording = false ∧
    (stopRecording (startRecording ⟨16000, 1, 16⟩ true initRecorder)
        StopFault.okFlow).2.recordingStream = false ∧
    (stopRecording (startRecording ⟨16000, 1, 16⟩ true initRecorder)
        StopFault.okFlow).2.recordingFile = false ∧
    (stopRecording (startRecording ⟨16000, 1, 16⟩ true initRecorder)
        StopFault.okFlow).2.recordingStartTime = false ∧
    (stopRecording (startRecording ⟨16000, 1, 16⟩ true initRecorder)
        StopFault.okFlow).2.recordingPackets = 0 ∧
    (stopRecording (startRecording ⟨16000, 1, 16⟩ true initRecorder)
        StopFault.okFlow).2.recordingBytes = 0 ∧
    (StopFault.okFlow = StopFault.finalizeErr →
      (stopRecording (startRecording ⟨16000, 1, 16⟩ true initRecorder)
        StopFault.okFlow).1 = Except.error ()) ∧
    (StopFault.okFlow = StopFault.okFlow →
      (stopRecording (startRecording ⟨16000, 1, 16⟩ true initRecorder)
        StopFault.okFlow).1 = Except.ok ()) ∧
    (startRecording ⟨16000, 1, 16⟩ true
        (stopRecording (startRecording ⟨16000, 1, 16⟩ true initRecorder)
          StopFault.okFlow).2).isRecording = true :=
  c8_stop_clears_session ⟨16000, 1, 16⟩ (startRecording ⟨16000, 1, 16⟩ true initRecorder)
    StopFault.okFlow rfl (by decide)

theorem readInt16LEPairs_length (l : List Nat) :
    (readInt16LEPairs l).length = l.length / 2 := by
  suffices h : ∀ m (l : List Nat), l.length ≤ m → (readInt16LEPairs l).length = l.length / 2 from
    h l.length l le_rfl
  intro m
  induction m with
  | zero =>
    intro l hl
    have h0 : l = [] := List.eq_nil_of_length_eq_zero (Nat.le_zero.mp hl)
    subst h0
    rfl
  | succ m ih =>
    intro l hl
    rcases l with _ | ⟨a, _ | ⟨b, rest⟩⟩
    · simp [readInt16LEPairs]
    · simp [readInt16LEPairs]
    · have hr := ih rest (by simp at hl; omega)
      simp only [readInt16LEPairs, List.length_cons, hr]
      omega

theorem readInt16LEPairs_getD : ∀ (i : Nat) (l : List Nat), i < l.length / 2 →
    (readInt16LEPairs l).getD i 0 = int16OfLE (l.getD (2 * i) 0) (l.getD (2 * i + 1) 0) := by
  intro i
  induction i with
  | zero =>
    intro l hl
    rcases l with _ | ⟨a, _ | ⟨b, rest⟩⟩
    · exfalso; simp only [List.length_nil] at hl; omega
    · exfalso; simp only [List.length_cons, List.length_nil] at hl; omega
    · simp [readInt16LEPairs]
  | succ i ih =>
    intro l hl
    rcases l with _ | ⟨a, _ | ⟨b, rest⟩⟩
    · exfalso; simp only [List.length_nil] at hl; omega
    · exfalso; simp only [List.length_cons, List.length_nil] at hl; omega
    · have hlt : i < rest.length / 2 := by
        simp only [List.length_cons] at hl
        omega
      have hr := ih rest hlt
      rw [show 2 * (i + 1) = 2 * i + 1 + 1 from by ring,
        show 2 * i + 1 + 1 + 1 = (2 * i + 1) + 1 + 1 from rfl]
      simp only [readInt16LEPairs, List.getD_cons_succ]
      exact hr

theorem int16OfLE_range (lo hi : Nat) (h1 : lo < 256) (h2 : hi < 256) :
    -32768 ≤ int16OfLE lo hi ∧ int16OfLE lo hi < 32768 := by
  simp only [int16OfLE]
  split <;> constructor <;> omega

theorem getD_lt_of_forall (l : List Nat) (n : Nat) (h : ∀ b ∈ l, b < 256)
    (hn : n < l.length) : l.getD n 0 < 256 := by
  rw [List.getD_eq_getElem l 0 hn]
  exact h _ (List.getElem_mem hn)

/-- C9: for every decoded payload byte sequence, the Packet Decoder's
sample loop produces exactly `⌊byteCount / 2⌋` samples (so a single
trailing byte of an odd-length payload is dropped), the i-th sample is
the little-endian signed 16-bit reinterpretation of bytes 2i and 2i+1,
and every produced sample lies in the signed 16-bit range. -/
theorem c9_decoder_pairs (bytes : List Nat) (hb : ∀ b ∈ bytes, b < 256) :
    (readInt16LEPairs bytes).length = bytes.length / 2 ∧
    (∀ i, i < bytes.length / 2 →
      (readInt16LEPairs bytes).getD i 0
        = int16OfLE (bytes.getD (2 * i) 0) (bytes.getD (2 * i + 1) 0) ∧
      -32768 ≤ (readInt16LEPairs bytes).getD i 0 ∧
      (readInt16LEPairs bytes).getD i 0 < 32768) := by
  refine ⟨readInt16LEPairs_length bytes, ?_⟩
  intro i hi
  have hpos := readInt16LEPairs_getD i bytes hi
  have hlo : bytes.getD (2 * i) 0 < 256 :=
    getD_lt_of_forall bytes (2 * i) hb (by omega)
  have hhi : bytes.getD (2 * i + 1) 0 < 256 :=
    getD_lt_of_forall bytes (2 * i + 1) hb (by omega)
  obtain ⟨r1, r2⟩ := int16OfLE_range _ _ hlo hhi
  exact ⟨hpos, by rw [hpos]; exact r1, by rw [hpos]; exact r2⟩

/-- Witness for C9 on the odd-length payload `[1, 2, 3]`: one sample is
produced (the trailing byte 3 is dropped) and it is the little-endian
reinterpretation of the first byte pair. -/
theorem c9_decoder_pairs_witness :
    (readInt16LEPairs [1, 2, 3]).length = [1, 2, 3].length / 2 ∧
    (readInt16LEPairs [1, 2, 3]).getD 0 0
      = int16OfLE ([1, 2, 3].getD 0 0) ([1, 2, 3].getD 1 0) :=
  ⟨(c9_decoder_pairs [1, 2, 3] (by decide)).1,
   ((c9_decoder_pairs [1, 2, 3] (by decide)).2 0 (by decide)).1⟩

/-- C10: during an active session, `writeAudioPacket` with a packet
whose sample array is missing / not an array (`data = none`) or empty
writes no bytes and leaves both counters unchanged; for a packet with a
non-empty sample array it appends exactly the serialized samples and
increments `recordingPackets` by one and `recordingBytes` by twice the
sample count. -/
theorem c10_write_packet_frame (cfg : AudioFormat) (p : Packet) (s : RecorderState)
    (h1 : s.isRecording = true) (h2 : s.recordingStream = true) :
    ((p.data = none ∨ p.data = some ([] : List Int)) →
      ((writeAudioPacket cfg p s).fileBytes = s.fileBytes ∧
       (writeAudioPacket cfg p s).recordingPackets = s.recordingPackets ∧
       (writeAudioPacket cfg p s).recordingBytes = s.recordingBytes)) ∧
    (∀ l : List Int, p.data = some l → l ≠ [] →
      ((writeAudioPacket cfg p s).recordingPackets = s.recordingPackets + 1 ∧
       (writeAudioPacket cfg p s).recordingBytes = s.recordingBytes + 2 * l.length ∧
       (writeAudioPacket cfg p s).fileBytes = s.fileBytes ++ samplesToBuffer l)) := by
  constructor
  · intro hd
    rcases hd with hd | hd <;>
      by_cases hp : s.recordingPackets = 0 <;>
        simp [writeAudioPacket, h1, h2, hd, hp]
  · intro l hd hne
    rcases l with _ | ⟨x, xs⟩
    · exact absurd rfl hne
    · by_cases hp : s.recordingPackets = 0 <;>
        simp [writeAudioPacket, h1, h2, hd, hp, samplesToBuffer_length]

/-- Witness for C10: a data-less packet leaves the fresh session's
packet counter unchanged, while a one-sample packet increments it. -/
theorem c10_write_packet_frame_witness :
    (writeAudioPacket ⟨16000, 1, 16⟩ ⟨none, none, none, none⟩
        (startRecording ⟨16000, 1, 16⟩ true initRecorder)).recordingPackets
      = (startRecording ⟨16000, 1, 16⟩ true initRecorder).recordingPackets ∧
    (writeAudioPacket ⟨16000, 1, 16⟩ ⟨some [5], none, none, none⟩
        (startRecording ⟨16000, 1, 16⟩ true initRecorder)).recordingPackets
      = (startRecording ⟨16000, 1, 16⟩ true initRecorder).recordingPackets + 1 :=
  ⟨((c10_write_packet_frame ⟨16000, 1, 16⟩ ⟨none, none, none, none⟩
      (startRecording ⟨16000, 1, 16⟩ true initRecorder) rfl rfl).1 (Or.inl rfl)).2.1,
   ((c10_write_packet_frame ⟨16000, 1, 16⟩ ⟨some [5], none, none, none⟩
      (startRecording ⟨16000, 1, 16⟩ true initRecorder) rfl rfl).2 [5] rfl (by decide)).1⟩
